import Mathlib

/-!
Shallow embedding of the `zap2telegram` zap core (entry-routing and
delivery-scheduling engine) and its option surface, together with proofs of
the spec's testable properties.

Source files embedded:
  * `telegram.go` — the Telegram client (`telegramClient`, `formatMessage`,
    `sendMessage`) and the core (`TelegramCore`, `NewTelegramCore`,
    `Enabled`, `Check`, `Write`, `With`, `Sync`, `consumeEntriesQueue`,
    `handleNewQueueEntries`, `getLevelThreshold`).
  * the options file — `Option` (here `TgOption`, to avoid the clash with
    Lean's `Option`), `WithLevel`, `WithStrongLevel`,
    `WithDisabledNotification`, `WithNotificationOn`, `WithParseMode`,
    `WithFormatter`, `WithoutAsyncOpt`, `WithQueue`.

External collaborators are abstracted: the Telegram bot API (`botAPI.Send`)
becomes a success/failure oracle `send : Int → Bool` keyed by destination
chat id, a failed send is reported as the failing chat id (the Go code wraps
the transport error with that id); goroutines and channels become explicit
state (the queued-mode channel is a FIFO list, the drain goroutine an
explicit event-trace interpreter).
-/

namespace Zap2Telegram

/-- `zapcore.Level`. Seven severities exist in zap (including `DPanic`);
the repo's `AllLevels` table lists only six of them. -/
inductive Level where
  | debug
  | info
  | warn
  | error
  | dpanic
  | panic
  | fatal
deriving DecidableEq, Repr, Fintype

/-- `zapcore.Level.String()` for the levels used here. -/
def Level.str : Level → String
  | .debug => "debug"
  | .info => "info"
  | .warn => "warn"
  | .error => "error"
  | .dpanic => "dpanic"
  | .panic => "panic"
  | .fatal => "fatal"

/-- A `zapcore.Field`: an opaque structured key/value attribute. -/
structure Field where
  key : String
  value : String
deriving DecidableEq, Repr

/-- A `zapcore.Entry`: one structured log record (time rendered as text). -/
structure Entry where
  time : String
  level : Level
  loggerName : String
  message : String
deriving DecidableEq, Repr

/-- `AllLevels` from the core file: "All levels provided by zap" (note the
table omits `DPanic`, and orders `Fatal` before `Panic`). -/
def AllLevels : List Level :=
  [.debug, .info, .warn, .error, .fatal, .panic]

/-- Scan helper for `getLevelThreshold`: first suffix starting at `l`. -/
def levelSuffix (l : Level) : List Level → List Level
  | [] => []
  | x :: xs => if x = l then x :: xs else levelSuffix l xs

/-- `getLevelThreshold` from `telegram.go`: returns `AllLevels[i:]` for the
first `i` with `AllLevels[i] == l`, and `[]` when `l` is not in the table. -/
def getLevelThreshold (l : Level) : List Level :=
  levelSuffix l AllLevels

/-- `defaultLoggerName` from `telegram.go`. -/
def defaultLoggerName : String := "zap2telegram"

/-- `defaultDisableNotification` from `telegram.go`. -/
def defaultDisableNotification : Bool := false

/-- `defaultLevel` from the core file (`zapcore.WarnLevel`). -/
def defaultLevel : Level := .warn

/-- `defaultAsyncOpt` from the core file. -/
def defaultAsyncOpt : Bool := true

/-- `defaultQueueOpt` from the core file. -/
def defaultQueueOpt : Bool := false

/-- The `telegramClient` struct of `telegram.go`. The `botAPI` handle is an
external collaborator and is replaced by the send oracle threaded through
`sendMessage`. -/
structure telegramClient where
  chatIDs : List Int
  disableNotification : Bool
  enableNotificationOnLevels : List Level
  parseMode : Option String
  formatter : Option (Entry → List Field → String)

/-- `formatMessage` from `telegram.go`: a custom formatter wins; otherwise
the default layout `Logger: name \n time \n level \n message`, with the
logger name falling back to `defaultLoggerName` when the entry is unnamed. -/
def formatMessage (c : telegramClient) (e : Entry) (fields : List Field) : String :=
  match c.formatter with
  | some f => f e fields
  | none =>
    let loggerName := if e.loggerName = "" then defaultLoggerName else e.loggerName
    "Logger: " ++ loggerName ++ "\n" ++ e.time ++ "\n" ++ e.level.str ++ "\n" ++ e.message

/-- The `DisableNotification` flag computed per message inside
`sendMessage`: start from `c.disableNotification`; when
`enableNotificationOnLevels` is non-empty and contains the entry's level,
the flag is forced to `false` (notification enabled). -/
def msgDisableNotification (c : telegramClient) (l : Level) : Bool :=
  if c.enableNotificationOnLevels.length > 0 ∧ l ∈ c.enableNotificationOnLevels then
    false
  else
    c.disableNotification

/-- One `botAPI.Send` call as observed by the transport: destination chat,
formatted text, notification flag, and parse mode. -/
structure Attempt where
  chatID : Int
  text : String
  disableNotification : Bool
  parseMode : Option String

/-- The destination loop of `sendMessage`: builds and sends one message per
chat id in order; on the first failed send it logs, and returns the wrapped
error (modelled as the failing chat id) immediately — the remaining chat
ids are not attempted. -/
def sendMessageLoop (send : Int → Bool) (c : telegramClient) (e : Entry)
    (fields : List Field) : List Int → List Attempt × Option Int
  | [] => ([], none)
  | chatID :: rest =>
    let att : Attempt :=
      { chatID := chatID
        text := formatMessage c e fields
        disableNotification := msgDisableNotification c e.level
        parseMode := c.parseMode }
    if send chatID then
      let r := sendMessageLoop send c e fields rest
      (att :: r.1, r.2)
    else
      ([att], some chatID)

/-- `sendMessage` from `telegram.go`, run against the oracle `send`:
returns the attempts made (in order) and the error returned to the caller
(`none` when every destination succeeded). -/
def sendMessage (send : Int → Bool) (c : telegramClient) (e : Entry)
    (fields : List Field) : List Attempt × Option Int :=
  sendMessageLoop send c e fields c.chatIDs

/-- `newTelegramClient` from `telegram.go`. The `tgbotapi.NewBotAPI` call
is an external transport concern (out of scope per the spec) and is
modelled as succeeding; the configuration-error claims only concern the
checks performed before and after it. -/
def newTelegramClient (chatIDs : List Int) : telegramClient :=
  { chatIDs := chatIDs
    disableNotification := defaultDisableNotification
    enableNotificationOnLevels := []
    parseMode := none
    formatter := none }

/-- A `chanEntry` from the core file: an entry plus its resolved fields,
flattened at enqueue time. -/
structure ChanEntry where
  entry : Entry
  fields : List Field
deriving DecidableEq, Repr

/-- The `TelegramCore` struct. The queued-mode channel `entriesChan`
becomes the FIFO list `entriesQueue` (with its capacity recorded in
`entriesCap`; blocking at capacity is a scheduling concern outside this
embedding).

Modelled from the spec: the struct in `telegram.go` holds the eligibility
state as `enabler zapcore.LevelEnabler` ("only send message if level is in
this list") while the options file stores the list itself in `h.levels`;
the glue between the two is not among the source shards. Following the
spec — "the eligible set is precomputed once as the suffix of the ordered
severity list starting at the floor" — the eligible state is the level
list `levels`, read by membership. -/
structure TelegramCore where
  inheritedFields : List Field
  telegramClient : telegramClient
  levels : List Level
  async : Bool
  queue : Bool
  intervalQueue : Nat
  entriesCap : Nat
  entriesQueue : List ChanEntry

/-- Configuration errors of `NewTelegramCore` and the options
(`ErrBotAccessToken`, `ErrChatIDs`, `ErrAsyncOpt`). -/
inductive ConfigErr where
  | botAccessToken
  | chatIDs
  | asyncOpt
deriving DecidableEq, Repr

/-- The `Option` type of the options file (`func(*TelegramCore) error`),
renamed to avoid Lean's `Option`. -/
def TgOption : Type := TelegramCore → Except ConfigErr TelegramCore

/-- `Enabled`: eligibility of a level. Modelled from the spec as membership
in the precomputed eligible list (see the note on `TelegramCore.levels`). -/
def Enabled (c : TelegramCore) (l : Level) : Bool :=
  c.levels.contains l

/-- `Check`: adds this core to the checked entry only when the entry's
level is enabled. The `zapcore.CheckedEntry` is modelled by the number of
cores attached to it (`AddCore` appends one). -/
def Check (c : TelegramCore) (entry : Entry) (checked : Nat) : Nat :=
  if Enabled c entry.level then checked + 1 else checked

/-- Resolved field sequence computed at the top of `Write`:
`append(fields, c.inheritedFields...)` — per-call fields first, inherited
fields appended. -/
def entryFields (c : TelegramCore) (fields : List Field) : List Field :=
  fields ++ c.inheritedFields

/-- Observable outcome of one `Write` call: the updated core (queue
state), the synchronous send attempts, the fire-and-forget task spawned in
async mode (its sends happen outside the call and its error is discarded),
and the error returned to the caller. -/
structure WriteResult where
  core : TelegramCore
  attempts : List Attempt
  spawned : Option ChanEntry
  err : Option Int

/-- `Write` from the core file: resolve the fields, then branch on the
delivery mode — async spawns a goroutine and returns nil; queued pushes a
`chanEntry` onto the channel and returns nil; otherwise send synchronously
and return `sendMessage`'s error. -/
def Write (send : Int → Bool) (c : TelegramCore) (entry : Entry)
    (fields : List Field) : WriteResult :=
  let resolved := entryFields c fields
  if c.async then
    { core := c, attempts := [], spawned := some ⟨entry, resolved⟩, err := none }
  else if c.queue then
    { core := { c with entriesQueue := c.entriesQueue ++ [⟨entry, resolved⟩] }
      attempts := []
      spawned := none
      err := none }
  else
    let r := sendMessage send c.telegramClient entry resolved
    { core := c, attempts := r.1, spawned := none, err := r.2 }

/-- `With` from the core file: clone the core and append the new fields to
the clone's inherited fields; the receiver is left unchanged. -/
def With (c : TelegramCore) (fields : List Field) : TelegramCore :=
  { c with inheritedFields := c.inheritedFields ++ fields }

/-- One drained entry's send outcome (`handleNewQueueEntries` ignores the
error, so the drain collects each `sendMessage` result purely as an
observation). -/
def drainEntries (send : Int → Bool) (tc : telegramClient) :
    List ChanEntry → List (List Attempt × Option Int)
  | [] => []
  | q :: rest => sendMessage send tc q.entry q.fields :: drainEntries send tc rest

/-- `handleNewQueueEntries`: receive entries while the channel is
non-empty, sending each; with no concurrent producers this dequeues the
current FIFO contents exactly once each, in order, leaving the channel
empty. Returns the drained core and the per-entry send outcomes. -/
def handleNewQueueEntries (send : Int → Bool) (c : TelegramCore) :
    TelegramCore × List (List Attempt × Option Int) :=
  ({ c with entriesQueue := [] }, drainEntries send c.telegramClient c.entriesQueue)

/-- `Sync` from the core file: in queued mode drain the channel via
`handleNewQueueEntries`; otherwise do nothing. (The Go method returns
`nil` in every case.) -/
def Sync (send : Int → Bool) (c : TelegramCore) :
    TelegramCore × List (List Attempt × Option Int) :=
  if c.queue then handleNewQueueEntries send c else (c, [])

/-- One observation point of the drain goroutine's `select`: a ticker
fire or the context's cancellation, each carrying the entries the
producers have pushed since the previous observation. -/
inductive QueueEvent where
  | tick (arrivals : List ChanEntry)
  | cancel (arrivals : List ChanEntry)

/-- Whether an event is a ticker fire. -/
def QueueEvent.isTick : QueueEvent → Bool
  | .tick _ => true
  | .cancel _ => false

/-- `consumeEntriesQueue` from the core file, interpreted over an explicit
event trace: on each ticker fire it drains the channel; on the context's
cancellation it performs one final drain and returns `ctx.Err()` (the
cancellation cause, abstracted as `cause`), ignoring any later events.
Returns the final core, the list of drains performed (per-drain outcomes),
and the loop's return value (`none` while the trace ends with the loop
still running). -/
def consumeEntriesQueue (send : Int → Bool) (cause : String) (c : TelegramCore) :
    List QueueEvent → TelegramCore × List (List (List Attempt × Option Int)) × Option String
  | [] => (c, [], none)
  | .tick arrivals :: rest =>
    let c1 := { c with entriesQueue := c.entriesQueue ++ arrivals }
    let d := handleNewQueueEntries send c1
    let r := consumeEntriesQueue send cause d.1 rest
    (r.1, d.2 :: r.2.1, r.2.2)
  | .cancel arrivals :: _ =>
    let c1 := { c with entriesQueue := c.entriesQueue ++ arrivals }
    let d := handleNewQueueEntries send c1
    (d.1, [d.2], some cause)

/-- `WithLevel` from the options file: eligible set becomes the threshold
suffix for `l`. -/
def WithLevel (l : Level) : TgOption := fun h =>
  .ok { h with levels := getLevelThreshold l }

/-- `WithStrongLevel` from the options file: eligible set becomes the
singleton `[l]`. -/
def WithStrongLevel (l : Level) : TgOption := fun h =>
  .ok { h with levels := [l] }

/-- `WithDisabledNotification` from the options file. -/
def WithDisabledNotification : TgOption := fun h =>
  .ok { h with telegramClient := { h.telegramClient with disableNotification := true } }

/-- `WithNotificationOn` from the options file: disables the default
notification and re-enables it only for the listed levels. -/
def WithNotificationOn (levels : List Level) : TgOption := fun h =>
  .ok { h with telegramClient :=
        { h.telegramClient with
            disableNotification := true
            enableNotificationOnLevels := levels } }

/-- `WithParseMode` from the options file. -/
def WithParseMode (parseMode : String) : TgOption := fun h =>
  .ok { h with telegramClient := { h.telegramClient with parseMode := some parseMode } }

/-- `WithFormatter` from the options file. -/
def WithFormatter (f : Entry → List Field → String) : TgOption := fun h =>
  .ok { h with telegramClient := { h.telegramClient with formatter := some f } }

/-- `WithoutAsyncOpt` from the options file: rejected with `ErrAsyncOpt`
when the queue option is already selected; otherwise switches delivery to
synchronous mode. -/
def WithoutAsyncOpt : TgOption := fun h =>
  if h.queue then .error .asyncOpt else .ok { h with async := false }

/-- `WithQueue` from the options file: selects queued mode (clearing
async), records the interval, and allocates the channel with the given
capacity. The goroutine it spawns is `consumeEntriesQueue`, modelled
separately over event traces; the `ctx` argument is represented there by
the cancellation event. -/
def WithQueue (interval : Nat) (queueSize : Nat) : TgOption := fun h =>
  .ok { h with
          async := false
          queue := true
          intervalQueue := interval
          entriesCap := queueSize
          entriesQueue := [] }

/-- `NewTelegramCore`: reject an empty token, then an empty chat-id list;
build the client and the default core; apply the options in order,
propagating the first option error. On any failure the `Except` carries
only the error — no core value. -/
def NewTelegramCore (botAccessToken : String) (chatIDs : List Int)
    (opts : List TgOption) : Except ConfigErr TelegramCore :=
  if botAccessToken = "" then
    .error .botAccessToken
  else if chatIDs.length = 0 then
    .error .chatIDs
  else
    let c : TelegramCore :=
      { inheritedFields := []
        telegramClient := newTelegramClient chatIDs
        levels := getLevelThreshold defaultLevel
        async := defaultAsyncOpt
        queue := defaultQueueOpt
        intervalQueue := 0
        entriesCap := 0
        entriesQueue := [] }
    opts.foldlM (fun c opt => opt c) c

/-- Rank of a level in the spec's total order
debug < info < warn < error < fatal < panic (DPanic sits outside the
spec's six-level list and is given the out-of-range rank 6). -/
def specRank : Level → Nat
  | .debug => 0
  | .info => 1
  | .warn => 2
  | .error => 3
  | .fatal => 4
  | .panic => 5
  | .dpanic => 6

/-! Concrete fixtures for witnesses and counterexamples. -/

/-- A synchronous-mode core over one destination, as produced by
`NewTelegramCore` followed by `WithoutAsyncOpt`. -/
def testCore : TelegramCore :=
  { inheritedFields := []
    telegramClient := newTelegramClient [1]
    levels := getLevelThreshold defaultLevel
    async := false
    queue := false
    intervalQueue := 0
    entriesCap := 0
    entriesQueue := [] }

/-- A debug-level entry. -/
def eDebug : Entry := { time := "t0", level := .debug, loggerName := "", message := "d" }

/-- A warn-level entry. -/
def eWarn : Entry := { time := "t1", level := .warn, loggerName := "main", message := "w" }

/-- An error-level entry. -/
def eErr : Entry := { time := "t2", level := .error, loggerName := "main", message := "e" }

/-! ### C2 — threshold mode -/

/-- Claim C2: in threshold mode with floor `F`, for every severity `L`
from the ordered six-level list, `Enabled L` holds iff `L ≥ F` in the
order debug < info < warn < error < fatal < panic, and the eligible set is
the suffix of the ordered severity list starting at `F`. -/
theorem withLevel_threshold_enabled (c c' : TelegramCore) (F L : Level)
    (hF : F ∈ AllLevels) (hL : L ∈ AllLevels)
    (h : WithLevel F c = Except.ok c') :
    (Enabled c' L = true ↔ specRank F ≤ specRank L) ∧
    c'.levels = AllLevels.drop (specRank F) := by
  simp only [WithLevel, Except.ok.injEq] at h
  subst h
  refine ⟨?_, ?_⟩
  · show (getLevelThreshold F).contains L = true ↔ specRank F ≤ specRank L
    revert hF hL
    revert F L
    decide
  · show getLevelThreshold F = AllLevels.drop (specRank F)
    revert hF
    revert F
    decide

/-- Witness for C2 at `F := warn`, `L := error`. -/
theorem withLevel_threshold_enabled_witness :
    Enabled { testCore with levels := getLevelThreshold .warn } .error = true :=
  (withLevel_threshold_enabled testCore _ .warn .error (by decide) (by decide) rfl).1.mpr
    (by decide)

/-! ### C9 — exact-level mode -/

/-- Claim C9: in exact-level mode with severity `E`, `Enabled L` holds iff
`L = E`; the prior core `c` is arbitrary, so any threshold configured
earlier is replaced, not narrowed. -/
theorem withStrongLevel_exact (c c' : TelegramCore) (E L : Level)
    (h : WithStrongLevel E c = Except.ok c') :
    (Enabled c' L = true ↔ L = E) ∧ c'.levels = [E] := by
  simp only [WithStrongLevel, Except.ok.injEq] at h
  subst h
  refine ⟨?_, rfl⟩
  show ([E].contains L = true) ↔ L = E
  revert E L
  decide

/-- Witness for C9 at `E := info`, `L := info`, starting from a core whose
threshold was previously warn. -/
theorem withStrongLevel_exact_witness :
    Enabled { testCore with levels := [Level.info] } .info = true :=
  (withStrongLevel_exact testCore _ .info .info rfl).1.mpr rfl

/-! ### C10 — non-emptiness of the eligible set (corrected) -/

/-- Counterexample to C10 as stated: configuring the threshold floor with
zap's `DPanic` level — a severity outside the fixed six-level table —
yields the empty eligible set: `getLevelThreshold` falls through to `[]`,
and afterwards not even `panic` is enabled. -/
theorem withLevel_dpanic_empty_cex :
    getLevelThreshold .dpanic = [] ∧
    (WithLevel .dpanic testCore).map TelegramCore.levels = Except.ok [] ∧
    (WithLevel .dpanic testCore).map (fun c => Enabled c .panic) = Except.ok false :=
  ⟨rfl, rfl, rfl⟩

/-- Claim C10 as amended: configuring the threshold floor with a severity
drawn from the fixed six-level list yields a non-empty suffix (in
particular `panic` stays eligible); for a severity outside that list, such
as `DPanic`, the eligible set is empty. -/
theorem withLevel_six_levels_nonempty (c c' : TelegramCore) (F : Level)
    (hF : F ∈ AllLevels) (h : WithLevel F c = Except.ok c') :
    c'.levels ≠ [] ∧ Enabled c' .panic = true := by
  simp only [WithLevel, Except.ok.injEq] at h
  subst h
  refine ⟨?_, ?_⟩
  · show getLevelThreshold F ≠ []
    revert hF; revert F; decide
  · show (getLevelThreshold F).contains .panic = true
    revert hF; revert F; decide

/-- Witness for the amended C10 at `F := fatal`. -/
theorem withLevel_six_levels_nonempty_witness :
    Enabled { testCore with levels := getLevelThreshold .fatal } .panic = true :=
  (withLevel_six_levels_nonempty testCore _ .fatal (by decide) rfl).2

/-! ### C3 — field derivation (`With`) -/

/-- Claim C3: deriving a handle with fields `F1` and then `F2` makes an
entry routed through the derived handle resolve to
(per-call fields) ++ F1 ++ F2, while the original handle (whose inherited
sequence is empty, as built by `NewTelegramCore`) still resolves to the
per-call fields alone — derivation copies, it never mutates the parent. -/
theorem with_fields_resolution (c : TelegramCore) (F1 F2 pf : List Field)
    (h : c.inheritedFields = []) :
    entryFields (With (With c F1) F2) pf = pf ++ F1 ++ F2 ∧
    (With (With c F1) F2).inheritedFields = F1 ++ F2 ∧
    entryFields c pf = pf := by
  simp [With, entryFields, h, List.append_assoc]

/-- Witness for C3 at concrete field lists. -/
theorem with_fields_resolution_witness :
    entryFields (With (With testCore [⟨"a", "1"⟩]) [⟨"b", "2"⟩]) [⟨"p", "0"⟩] =
      [⟨"p", "0"⟩, ⟨"a", "1"⟩, ⟨"b", "2"⟩] :=
  (with_fields_resolution testCore [⟨"a", "1"⟩] [⟨"b", "2"⟩] [⟨"p", "0"⟩] rfl).1

/-! ### C7 — eligibility at the write path (corrected) -/

/-- A synchronous core whose eligible set is exactly `[error]`. -/
def c7core : TelegramCore := { testCore with levels := [.error] }

/-- Counterexample to C7 as stated: `Write` performs no eligibility
re-check. On a synchronous core eligible only for `error`, a debug entry —
for which `Enabled` is false — still produces a send attempt when `Write`
is called directly. -/
theorem write_skips_eligibility_cex :
    Enabled c7core eDebug.level = false ∧
    (Write (fun _ => true) c7core eDebug []).attempts.length = 1 :=
  ⟨rfl, rfl⟩

/-- Claim C7 as amended: the defensive eligibility gate lives in `Check`,
not in `Write` — for an entry whose severity is not eligible, `Check`
declines to attach this core to the checked entry (so the framework never
routes the entry to `Write`), and for an eligible entry it attaches it. -/
theorem check_gates_ineligible (c : TelegramCore) (entry : Entry) (checked : Nat) :
    (Enabled c entry.level = false → Check c entry checked = checked) ∧
    (Enabled c entry.level = true → Check c entry checked = checked + 1) := by
  constructor <;> intro h <;> simp [Check, h]

/-- Witness for the amended C7: a debug entry against the error-only core
leaves the checked entry without this core. -/
theorem check_gates_ineligible_witness :
    Check c7core eDebug 0 = 0 :=
  (check_gates_ineligible c7core eDebug 0).1 rfl

/-! ### C4 — urgency (notification) policy -/

/-- Every attempt built inside the destination loop carries the same
notification flag, `msgDisableNotification` at the entry's level. -/
theorem sendMessageLoop_disableNotification (send : Int → Bool)
    (tc : telegramClient) (e : Entry) (f : List Field) :
    ∀ ids att, att ∈ (sendMessageLoop send tc e f ids).1 →
      att.disableNotification = msgDisableNotification tc e.level := by
  intro ids
  induction ids with
  | nil => intro att h; simp [sendMessageLoop] at h
  | cons id rest ih =>
    intro att h
    by_cases hs : send id
    · simp only [sendMessageLoop, hs, if_true, List.mem_cons] at h
      rcases h with h | h
      · subst h; rfl
      · exact ih att h
    · simp only [sendMessageLoop, hs, if_false, Bool.false_eq_true,
        List.mem_singleton] at h
      subst h; rfl

/-- Claim C4: after `WithNotificationOn U`, if `U` is empty no attempted
message ever has notification enabled, and in general an attempted message
has notification enabled (flag `false`) iff the entry's level is in `U`. -/
theorem withNotificationOn_urgency (U : List Level) (c c' : TelegramCore)
    (h : WithNotificationOn U c = Except.ok c')
    (send : Int → Bool) (e : Entry) (f : List Field) :
    (U = [] → ∀ att ∈ (sendMessage send c'.telegramClient e f).1,
      att.disableNotification = true) ∧
    (∀ att ∈ (sendMessage send c'.telegramClient e f).1,
      (att.disableNotification = false ↔ e.level ∈ U)) := by
  simp only [WithNotificationOn, Except.ok.injEq] at h
  subst h
  have key : ∀ att ∈ (sendMessage send
      { c.telegramClient with
          disableNotification := true
          enableNotificationOnLevels := U } e f).1,
      att.disableNotification = !(decide (e.level ∈ U)) := by
    intro att hatt
    rw [sendMessageLoop_disableNotification send _ e f _ att hatt]
    by_cases hm : e.level ∈ U
    · have hlen : U.length > 0 := by
        cases U with
        | nil => simp at hm
        | cons a t => simp
      simp [msgDisableNotification, hm, hlen]
    · simp [msgDisableNotification, hm]
  refine ⟨?_, ?_⟩
  · rintro rfl att hatt
    rw [key att hatt]; simp
  · intro att hatt
    rw [key att hatt]
    by_cases hm : e.level ∈ U <;> simp [hm]

/-- The core produced by `WithNotificationOn [error]` on the test core. -/
def c4core : TelegramCore :=
  { testCore with telegramClient :=
      { testCore.telegramClient with
          disableNotification := true
          enableNotificationOnLevels := [.error] } }

/-- The single attempt made when sending an error entry through `c4core`. -/
def c4att : Attempt :=
  { chatID := 1
    text := formatMessage c4core.telegramClient eErr []
    disableNotification := msgDisableNotification c4core.telegramClient eErr.level
    parseMode := none }

/-- Witness for C4: with `U = [error]`, the attempt for an error entry has
notification enabled. -/
theorem withNotificationOn_urgency_witness :
    c4att.disableNotification = false :=
  ((withNotificationOn_urgency [.error] testCore c4core rfl (fun _ => true) eErr []).2
      c4att (List.mem_singleton_self c4att)).mpr (by decide)

/-! ### C1 — per-destination sends in synchronous mode (corrected) -/

/-- When every destination's send succeeds, the loop attempts all of them
in order and reports no error. -/
theorem sendMessageLoop_all_ok (send : Int → Bool) (tc : telegramClient)
    (e : Entry) (f : List Field) :
    ∀ ids, (∀ id ∈ ids, send id = true) →
      (sendMessageLoop send tc e f ids).2 = none ∧
      (sendMessageLoop send tc e f ids).1.map Attempt.chatID = ids := by
  intro ids
  induction ids with
  | nil => intro _; simp [sendMessageLoop]
  | cons id rest ih =>
    intro hall
    have hid : send id = true := hall id (by simp)
    have hrest := ih fun i hi => hall i (List.mem_cons_of_mem id hi)
    simp [sendMessageLoop, hid, hrest.1, hrest.2]

/-- When the destinations before `bad` succeed and `bad` fails, the loop
stops at `bad`: the attempts are exactly the prefix up to and including
`bad`, and the error reported is `bad`'s — the destinations after `bad`
are never attempted. -/
theorem sendMessageLoop_first_fail (send : Int → Bool) (tc : telegramClient)
    (e : Entry) (f : List Field) :
    ∀ pre bad post, (∀ id ∈ pre, send id = true) → send bad = false →
      (sendMessageLoop send tc e f (pre ++ bad :: post)).2 = some bad ∧
      (sendMessageLoop send tc e f (pre ++ bad :: post)).1.map Attempt.chatID =
        pre ++ [bad] := by
  intro pre
  induction pre with
  | nil => intro bad post _ hbad; simp [sendMessageLoop, hbad]
  | cons id rest ih =>
    intro bad post hall hbad
    have hid : send id = true := hall id (by simp)
    have hrest := ih bad post (fun i hi => hall i (List.mem_cons_of_mem id hi)) hbad
    simp [sendMessageLoop, hid, hrest.1, hrest.2]

/-- A synchronous core over the two destinations 1 and 2. -/
def c1core : TelegramCore :=
  { testCore with telegramClient := { testCore.telegramClient with chatIDs := [1, 2] } }

/-- Counterexample to C1 as stated: synchronous mode, destinations
`[1, 2]`, every send failing. The claim predicts attempts on both
destinations and the last failure (destination 2) as the returned error;
the code attempts only destination 1 and returns its failure. -/
theorem write_sync_aborts_on_failure_cex :
    (Write (fun _ => false) c1core eWarn []).attempts.map Attempt.chatID = [1] ∧
    (Write (fun _ => false) c1core eWarn []).err = some 1 :=
  ⟨rfl, rfl⟩

/-- Claim C1 as amended: in synchronous mode, sends are attempted in
destination order only until the first failure; a failure aborts the sends
to the remaining destinations, and `Write` returns the first failure
observed (nil when every destination succeeded). -/
theorem write_sync_first_failure (send : Int → Bool) (c : TelegramCore)
    (e : Entry) (f : List Field) (ha : c.async = false) (hq : c.queue = false) :
    (Write send c e f).err =
      (sendMessage send c.telegramClient e (entryFields c f)).2 ∧
    ((∀ id ∈ c.telegramClient.chatIDs, send id = true) →
      (Write send c e f).err = none ∧
      (Write send c e f).attempts.map Attempt.chatID = c.telegramClient.chatIDs) ∧
    (∀ pre bad post, c.telegramClient.chatIDs = pre ++ bad :: post →
      (∀ id ∈ pre, send id = true) → send bad = false →
      (Write send c e f).err = some bad ∧
      (Write send c e f).attempts.map Attempt.chatID = pre ++ [bad]) := by
  have hw : Write send c e f =
      { core := c
        attempts := (sendMessage send c.telegramClient e (entryFields c f)).1
        spawned := none
        err := (sendMessage send c.telegramClient e (entryFields c f)).2 } := by
    simp [Write, ha, hq]
  refine ⟨by rw [hw], ?_, ?_⟩
  · intro hall
    have := sendMessageLoop_all_ok send c.telegramClient e (entryFields c f)
      c.telegramClient.chatIDs hall
    rw [hw]
    exact ⟨this.1, this.2⟩
  · intro pre bad post hids hall hbad
    have := sendMessageLoop_first_fail send c.telegramClient e (entryFields c f)
      pre bad post hall hbad
    rw [hw]
    simp only [sendMessage, hids]
    exact ⟨this.1, this.2⟩

/-- Witness for the amended C1: on `c1core` with only destination 1
failing, `Write` attempts destination 1 alone and returns its error. -/
theorem write_sync_first_failure_witness :
    (Write (fun id => id != 1) c1core eWarn []).err = some 1 ∧
    (Write (fun id => id != 1) c1core eWarn []).attempts.map Attempt.chatID = [1] :=
  (write_sync_first_failure (fun id => id != 1) c1core eWarn [] rfl rfl).2.2
    [] 1 [2] rfl (by simp) (by decide)

/-! ### C5 — queued-mode flush (`Sync`) -/

/-- The drain sends one message per queued entry, in order. -/
theorem drainEntries_map (send : Int → Bool) (tc : telegramClient) :
    ∀ q : List ChanEntry,
      drainEntries send tc q = q.map fun en => sendMessage send tc en.entry en.fields := by
  intro q
  induction q with
  | nil => rfl
  | cons en rest ih => simp [drainEntries, ih]

/-- In queued mode, `Write` only appends the resolved entry to the
channel. -/
theorem write_queued_core (send : Int → Bool) (c : TelegramCore) (e : Entry)
    (f : List Field) (ha : c.async = false) (hq : c.queue = true) :
    Write send c e f =
      { core := { c with entriesQueue := c.entriesQueue ++ [⟨e, entryFields c f⟩] }
        attempts := []
        spawned := none
        err := none } := by
  simp [Write, ha, hq]

/-- Enqueueing a batch of entries through `Write` in queued mode. -/
def enqueueAll (send : Int → Bool) (c : TelegramCore)
    (items : List (Entry × List Field)) : TelegramCore :=
  items.foldl (fun acc p => (Write send acc p.1 p.2).core) c

/-- Folding queued-mode `Write` over a batch appends the resolved entries
to the channel in order and changes nothing else. -/
theorem enqueueAll_spec (send : Int → Bool) :
    ∀ (items : List (Entry × List Field)) (c : TelegramCore),
      c.async = false → c.queue = true →
      enqueueAll send c items =
        { c with entriesQueue :=
            c.entriesQueue ++ items.map fun p => ⟨p.1, p.2 ++ c.inheritedFields⟩ } := by
  intro items
  induction items with
  | nil => intro c _ _; simp [enqueueAll]
  | cons p rest ih =>
    intro c ha hq
    show enqueueAll send ((Write send c p.1 p.2).core) rest = _
    rw [write_queued_core send c p.1 p.2 ha hq]
    rw [ih { c with entriesQueue := c.entriesQueue ++ [⟨p.1, entryFields c p.2⟩] } ha hq]
    simp [entryFields, List.append_assoc]

/-- Claim C5: in queued mode, after enqueueing `N` entries through `Write`
(starting from an empty channel, no concurrent producers), `Sync` performs
exactly one delivery per enqueued entry — `N` in total, in enqueue order,
none duplicated or skipped — and leaves the channel empty; on a
non-queued core `Sync` does nothing. -/
theorem sync_flushes_queue (send : Int → Bool) (c : TelegramCore)
    (items : List (Entry × List Field)) (ha : c.async = false)
    (hq : c.queue = true) (h0 : c.entriesQueue = []) :
    (enqueueAll send c items).entriesQueue =
      (items.map fun p => ⟨p.1, p.2 ++ c.inheritedFields⟩) ∧
    (Sync send (enqueueAll send c items)).2 =
      (enqueueAll send c items).entriesQueue.map
        (fun en => sendMessage send c.telegramClient en.entry en.fields) ∧
    (Sync send (enqueueAll send c items)).2.length = items.length ∧
    (Sync send (enqueueAll send c items)).1.entriesQueue = [] ∧
    (∀ d : TelegramCore, d.queue = false → Sync send d = (d, [])) := by
  have he := enqueueAll_spec send items c ha hq
  have hqueue : (enqueueAll send c items).entriesQueue =
      items.map fun p => ⟨p.1, p.2 ++ c.inheritedFields⟩ := by
    rw [he]; simp [h0]
  have hclient : (enqueueAll send c items).telegramClient = c.telegramClient := by
    rw [he]
  have hq' : (enqueueAll send c items).queue = true := by rw [he]; exact hq
  refine ⟨hqueue, ?_, ?_, ?_, ?_⟩
  · simp [Sync, hq', handleNewQueueEntries, drainEntries_map, hclient]
  · simp [Sync, hq', handleNewQueueEntries, drainEntries_map, hqueue]
  · simp [Sync, hq', handleNewQueueEntries]
  · intro d hd; simp [Sync, hd]

/-- Witness for C5: two entries enqueued, flushed in order, channel empty
afterwards. -/
theorem sync_flushes_queue_witness :
    (Sync (fun _ => true)
        (enqueueAll (fun _ => true) { testCore with queue := true }
          [(eWarn, []), (eErr, [])])).2.length = 2 ∧
    (Sync (fun _ => true)
        (enqueueAll (fun _ => true) { testCore with queue := true }
          [(eWarn, []), (eErr, [])])).1.entriesQueue = [] :=
  ⟨(sync_flushes_queue (fun _ => true) { testCore with queue := true }
      [(eWarn, []), (eErr, [])] rfl rfl rfl).2.2.1,
   (sync_flushes_queue (fun _ => true) { testCore with queue := true }
      [(eWarn, []), (eErr, [])] rfl rfl rfl).2.2.2.1⟩

/-! ### C6 — construction configuration errors -/

/-- Claim C6: construction fails in three independent scenarios — empty
credential (`ErrBotAccessToken`, checked first), empty destination list
(`ErrChatIDs`), and the async/queue mode conflict (`ErrAsyncOpt`, raised
when `WithoutAsyncOpt` is applied while the queue option is selected) —
each synchronously at construction/option-application time; the `Except`
result carries no core value on any failure. -/
theorem construction_config_errors (token : String) (chatIDs : List Int)
    (opts : List TgOption) (interval size : Nat)
    (ht : token ≠ "") (hc : chatIDs ≠ []) :
    NewTelegramCore "" chatIDs opts = Except.error .botAccessToken ∧
    NewTelegramCore token [] opts = Except.error .chatIDs ∧
    NewTelegramCore token chatIDs [WithQueue interval size, WithoutAsyncOpt] =
      Except.error .asyncOpt := by
  have hlen : chatIDs.length ≠ 0 := by
    simpa [List.length_eq_zero] using hc
  refine ⟨rfl, ?_, ?_⟩
  · simp [NewTelegramCore, ht]
  · simp only [NewTelegramCore, if_neg ht, if_neg hlen]
    rfl

/-- Witness for C6 with a concrete token and destination list. -/
theorem construction_config_errors_witness :
    NewTelegramCore "t" [1] [WithQueue 11 330, WithoutAsyncOpt] =
      Except.error .asyncOpt :=
  (construction_config_errors "t" [1] [] 11 330 (by decide) (by decide)).2.2

/-! ### C8 — drain-loop cancellation -/

/-- A drain removes exactly the entries present at its observation and
leaves the channel empty: it performs one `sendMessage` per present entry
(never waiting on producers for more). -/
theorem handleNewQueueEntries_drains (send : Int → Bool) (d : TelegramCore) :
    (handleNewQueueEntries send d).1.entriesQueue = [] ∧
    (handleNewQueueEntries send d).2.length = d.entriesQueue.length := by
  refine ⟨rfl, ?_⟩
  show (drainEntries send d.telegramClient d.entriesQueue).length = _
  induction d.entriesQueue with
  | nil => rfl
  | cons en rest ih => simp [drainEntries, ih]

/-- The loop invariant behind C8: once the cancellation event arrives, the
loop drains once more and stops — later events are never consumed, the
loop's return value is the cancellation cause, the number of drains is one
per preceding tick plus the final one, and the channel ends empty. -/
theorem consume_cancel_terminates (send : Int → Bool) (cause : String) :
    ∀ (pre : List QueueEvent) (c : TelegramCore) (arr : List ChanEntry)
      (post : List QueueEvent), (∀ ev ∈ pre, ev.isTick = true) →
      consumeEntriesQueue send cause c (pre ++ .cancel arr :: post) =
        consumeEntriesQueue send cause c (pre ++ [.cancel arr]) ∧
      (consumeEntriesQueue send cause c (pre ++ .cancel arr :: post)).2.2 =
        some cause ∧
      (consumeEntriesQueue send cause c (pre ++ .cancel arr :: post)).2.1.length =
        pre.length + 1 ∧
      (consumeEntriesQueue send cause c (pre ++ .cancel arr :: post)).1.entriesQueue =
        [] := by
  intro pre
  induction pre with
  | nil =>
    intro c arr post _
    exact ⟨rfl, rfl, rfl, rfl⟩
  | cons ev rest ih =>
    intro c arr post hpre
    cases ev with
    | cancel a =>
      have : QueueEvent.isTick (.cancel a) = true := hpre _ (by simp)
      simp [QueueEvent.isTick] at this
    | tick a =>
      have hrest : ∀ e ∈ rest, QueueEvent.isTick e = true :=
        fun e he => hpre e (List.mem_cons_of_mem _ he)
      have hih := ih ((handleNewQueueEntries send
          { c with entriesQueue := c.entriesQueue ++ a }).1) arr post hrest
      refine ⟨?_, ?_, ?_, ?_⟩
      · simp only [List.cons_append, consumeEntriesQueue, List.append_eq]
        rw [hih.1]
      · simp only [List.cons_append, consumeEntriesQueue, List.append_eq]
        exact hih.2.1
      · simp only [List.cons_append, consumeEntriesQueue, List.append_eq,
          List.length_cons]
        rw [hih.2.2.1]
      · simp only [List.cons_append, consumeEntriesQueue, List.append_eq]
        exact hih.2.2.2

/-- Claim C8: on receiving the cancellation signal, the queued-mode drain
loop performs exactly one final drain, terminates (events after the
cancellation are ignored), and returns the cancellation cause as its own
termination reason; and each drain only removes the entries already
present at its observation — one send per present entry, leaving the
channel empty, never waiting on producers. -/
theorem drain_loop_cancellation (send : Int → Bool) (cause : String)
    (c : TelegramCore) (pre : List QueueEvent) (arr : List ChanEntry)
    (post : List QueueEvent) (hpre : ∀ ev ∈ pre, ev.isTick = true) :
    (consumeEntriesQueue send cause c (pre ++ .cancel arr :: post) =
      consumeEntriesQueue send cause c (pre ++ [.cancel arr])) ∧
    (consumeEntriesQueue send cause c (pre ++ .cancel arr :: post)).2.2 =
      some cause ∧
    (consumeEntriesQueue send cause c (pre ++ .cancel arr :: post)).2.1.length =
      pre.length + 1 ∧
    (consumeEntriesQueue send cause c (pre ++ .cancel arr :: post)).1.entriesQueue =
      [] ∧
    (∀ d : TelegramCore,
      (handleNewQueueEntries send d).1.entriesQueue = [] ∧
      (handleNewQueueEntries send d).2.length = d.entriesQueue.length) := by
  have h := consume_cancel_terminates send cause pre c arr post hpre
  exact ⟨h.1, h.2.1, h.2.2.1, h.2.2.2, fun d => handleNewQueueEntries_drains send d⟩

/-- A queued-mode core for the C8 witness. -/
def qCore : TelegramCore := { testCore with queue := true }

/-- Witness for C8: one tick, then cancellation with one pending entry,
followed by a stale tick that is never consumed. -/
theorem drain_loop_cancellation_witness :
    (consumeEntriesQueue (fun _ => true) "context canceled" qCore
        [.tick [], .cancel [⟨eWarn, []⟩], .tick []]).2.2 = some "context canceled" ∧
    (consumeEntriesQueue (fun _ => true) "context canceled" qCore
        [.tick [], .cancel [⟨eWarn, []⟩], .tick []]).2.1.length = 2 :=
  ⟨(drain_loop_cancellation (fun _ => true) "context canceled" qCore
      [.tick []] [⟨eWarn, []⟩] [.tick []]
      (by intro ev hev; simp at hev; subst hev; rfl)).2.1,
   (drain_loop_cancellation (fun _ => true) "context canceled" qCore
      [.tick []] [⟨eWarn, []⟩] [.tick []]
      (by intro ev hev; simp at hev; subst hev; rfl)).2.2.1⟩

end Zap2Telegram
